import Mathlib

/-!
Verification development for the edge-link device configuration orchestrator.

The definitions below are a shallow embedding of the JavaScript source:
  - src/components/Detail.jsx   (orchestrator, port pre-assignment, verify
    steps, confirmation poller, bulk restart, safe-mode guards)
  - src/utils/tellyoUtils.js    (Tellyo channel payload and SRT port helper)
  - src/api/videonApi.js        (downstream find-by-label logic)

JavaScript idioms are made explicit:
  - `a || b` on possibly-missing numbers/strings is `jsOrNat` / `jsOrStr`
    (0 and the empty string are falsy and fall through);
  - `a ?? b` is `Option.orElse` (only null/undefined fall through);
  - a truthiness test on a possibly-missing id is `jsTruthyId`;
  - a shadow state that the device reports as an array or as an object keyed
    by arbitrary id is the inductive `StateShape`.
-/

namespace EdgeLink

/-- JavaScript `a || b` over optional numbers: `0` is falsy and falls through. -/
def jsOrNat : Option Nat → Option Nat → Option Nat
  | some n, b => if n = 0 then b else some n
  | none, b => b

/-- JavaScript `a || b` over optional strings: the empty string is falsy. -/
def jsOrStr : Option String → Option String → Option String
  | some s, b => if s = "" then b else some s
  | none, b => b

/-- JavaScript truthiness of a possibly-missing numeric id:
`undefined` and `0` are falsy. -/
def jsTruthyId : Option Nat → Bool
  | none => false
  | some n => n != 0

/-- One entry of a device shadow's reported state.  Fields mirror the JSON
shapes the source reads: `type`/`config.type`, `name`/`config.name`,
`config.enable`, `config.destination_port`, `output_type.value`,
`output_type.srt.dest_port`, `out_stream_id`, `output_id`. -/
structure Entry where
  id : Option Nat := none
  output_id : Option Nat := none
  type : Option String := none
  cfgType : Option String := none
  name : Option String := none
  cfgName : Option String := none
  cfgEnable : Option Bool := none
  cfgDestPort : Option Nat := none
  outStreamId : Option Nat := none
  otValue : Option String := none
  otSrtDestPort : Option Nat := none
deriving Repr, DecidableEq

/-- A shadow's reported state: the device may send an array of entries or an
object keyed by arbitrary id (`Object.values` order is insertion order). -/
inductive StateShape where
  | array (items : List Entry)
  | map (items : List (String × Entry))
deriving Repr, DecidableEq

/-- Normalization used by `getItems` and `findId2` in Detail.jsx:
an array is used as is, an object is flattened with `Object.values`,
anything else gives the empty list. -/
def stateItems : Option StateShape → List Entry
  | some (.array l) => l
  | some (.map kvs) => kvs.map (fun kv => kv.2)
  | none => []

/-- A named, versioned shadow as returned by the device shadows endpoint. -/
structure Shadow where
  shadow_name : String
  reported : Option StateShape := none
  current_version : Option Nat := none
  version : Option Nat := none
deriving Repr, DecidableEq

/-- Detail.jsx `findId2(sName, iName)`: find the named shadow, normalize its
reported state, and return the id of the first item whose `config.name` or
`name` equals `iName`. -/
def findId2 (shadows : List Shadow) (sName iName : String) : Option Nat :=
  match shadows.find? (fun x => x.shadow_name == sName) with
  | some s =>
      ((stateItems s.reported).find?
        (fun i => i.cfgName == some iName || i.name == some iName)).bind
        (fun i => i.id)
  | none => none

/-- One output intent of a profile (an element of `cur.outputs` after the
deep copy to `newOutputs` in `handleConfigure`). -/
structure Intent where
  target : String
  name : Option String := none
  videonId : Option Nat := none
  tempPort : Option Nat := none
deriving Repr, DecidableEq

/-- The two downstream delivery platform targets recognized by the
pre-assignment loop in `handleConfigure`. -/
def isPlatform (t : String) : Bool :=
  t == "Tellyo Studio" || t == "Amagi CLOUDPORT"

/-- Port pre-assignment loop of `handleConfigure` (Detail.jsx lines 267-274),
with the running `portCounter` made explicit.  For each platform-targeted
output the current counter value is taken, the counter is incremented, and
the run aborts when the taken port exceeds 10100. -/
def preassignGo (counter : Nat) : List Intent → Except String (List Intent)
  | [] => .ok []
  | o :: rest =>
      if isPlatform o.target then
        let port := counter
        if port > 10100 then .error "Port range exhausted (10001-10100)"
        else
          match preassignGo (counter + 1) rest with
          | .ok rest' => .ok ({ o with tempPort := some port } :: rest')
          | .error e => .error e
      else
        match preassignGo counter rest with
        | .ok rest' => .ok (o :: rest')
        | .error e => .error e

/-- Port pre-assignment with the fixed starting port 10001. -/
def preassignPorts (outs : List Intent) : Except String (List Intent) :=
  preassignGo 10001 outs

/-- The delay sequence of the confirmation poller (Detail.jsx line 9). -/
def OUTPUT_CONFIRM_DELAYS : List Nat := [300, 600, 1200]

/-- Result of one confirmation-poll run: the sleeps actually performed (in
order), the final predicate verdict, and the last state fetched. -/
structure ConfirmResult (S : Type) where
  waits : List Nat
  ok : Bool
  outs : S
deriving Repr

/-- `confirmOutputsState` of Detail.jsx, with the sequence of fetch results
made explicit as `fetch : Nat → S` (the k-th network read returns `fetch k`).
For each delay: sleep, fetch, and return early when the predicate holds;
after exhausting the delays perform one final fetch and return its predicate
verdict. -/
def confirmGo {S : Type} (fetch : Nat → S) (check : S → Bool) :
    Nat → List Nat → ConfirmResult S
  | i, [] => ⟨[], check (fetch i), fetch i⟩
  | i, d :: ds =>
      let s := fetch i
      if check s then ⟨[d], true, s⟩
      else
        let r := confirmGo fetch check (i + 1) ds
        ⟨d :: r.waits, r.ok, r.outs⟩

/-- The poller as called in the source, with the configured delays. -/
def confirmOutputsState {S : Type} (fetch : Nat → S) (check : S → Bool) :
    ConfirmResult S :=
  confirmGo fetch check 0 OUTPUT_CONFIRM_DELAYS

/-- The `portMap` built in the outputs-write loop of `handleConfigure`:
for every platform-targeted output intent at position `index`, its
pre-assigned `_tempPort` is mapped to `index`. -/
def portAssignments (outs : List Intent) : List (Nat × Nat) :=
  outs.enum.filterMap (fun p =>
    if isPlatform p.2.target then p.2.tempPort.map (fun port => (port, p.1))
    else none)

/-- Lookup in the `portMap` object.  A JavaScript object keeps the last
assignment per key, so the reversed list is searched. -/
def portMapGet (assigns : List (Nat × Nat)) (p : Nat) : Option Nat :=
  (assigns.reverse.find? (fun a => a.1 == p)).map (fun a => a.2)

/-- Writing `videonId` onto the intent at position `i`
(`newOutputs[portMap[p]].videonId = ...`). -/
def setIntentVideonId (l : List Intent) (i : Nat) (v : Option Nat) :
    List Intent :=
  l.enum.map (fun p => if p.1 == i then { p.2 with videonId := v } else p.2)

/-- Processing of one reported output entry in the final confirm step of
`handleConfigure` (Detail.jsx lines 516-526): the listener port is
`output_type.srt.dest_port || config.destination_port`, the type is
`output_type.value || type`; an srt entry with a truthy port that appears in
the port map writes `out_stream_id || id` onto the matched intent. -/
def applyReported (assigns : List (Nat × Nat)) (acc : List Intent)
    (ro : Entry) : List Intent :=
  match jsOrStr ro.otValue ro.type, jsOrNat ro.otSrtDestPort ro.cfgDestPort with
  | some t, some p =>
      if t == "srt" && p != 0 then
        match portMapGet assigns p with
        | some idx => setIntentVideonId acc idx (jsOrNat ro.outStreamId ro.id)
        | none => acc
      else acc
  | _, _ => acc

/-- The VerifyOutputs matching step (Detail.jsx lines 512-527).  The source
guards the loop with `Array.isArray(reported)`: only an array-shaped
reported state is processed; a map-shaped state is skipped entirely (unlike
`findId2`, which flattens a map with `Object.values`). -/
def verifyOutputsMatch (outs : List Intent) (reported : Option StateShape) :
    List Intent :=
  let assigns := portAssignments outs
  match reported with
  | some (.array l) => l.foldl (fun acc ro => applyReported assigns acc ro) outs
  | _ => outs

/-- Deterministic video encoder name built in `handleConfigure`:
`cur.name || "Profile"` followed by the `_video` suffix. -/
def videoNameOf (profileName : String) : String :=
  (if profileName == "" then "Profile" else profileName) ++ "_video"

/-- Deterministic audio encoder name, with the `_audio` suffix. -/
def audioNameOf (profileName : String) : String :=
  (if profileName == "" then "Profile" else profileName) ++ "_audio"

/-- Kind test used both when capturing pre-existing encoder ids and in the
fallback search: `e.type === kind || e.config?.type === kind`. -/
def isVideoEntry (e : Entry) : Bool :=
  e.type == some "video" || e.cfgType == some "video"

/-- Audio counterpart of `isVideoEntry`. -/
def isAudioEntry (e : Entry) : Bool :=
  e.type == some "audio" || e.cfgType == some "audio"

/-- Ids of the entries of one kind observed before the encoder write
(Detail.jsx lines 310-311). -/
def preKindIds (currentEncoders : List Entry) (isKind : Entry → Bool) :
    List (Option Nat) :=
  (currentEncoders.filter isKind).map (fun e => e.id)

/-- The normalized Encoders list read back in the verify step. -/
def encodersList (shadows : List Shadow) : List Entry :=
  stateItems
    ((shadows.find? (fun x => x.shadow_name == "Encoders")).bind
      (fun s => s.reported))

/-- Fallback id resolution (Detail.jsx lines 394-406): when the id found by
name is falsy, pick the first entry of the right kind whose id was not seen
before the write; keep the current value when no such entry exists.  (In
the source the block is additionally guarded by `!vidId || !audId`, which is
implied by the individual guard.) -/
def encFallback (list : List Entry) (pre : List (Option Nat))
    (isKind : Entry → Bool) (cur : Option Nat) : Option Nat :=
  match list.find? (fun e => isKind e && !(pre.contains e.id)) with
  | some newE => newE.id
  | none => cur

/-- The VerifyEncoders step (Detail.jsx lines 390-415): resolve the video
and audio encoder ids by name via `findId2`; on a falsy result fall back to
the id-set difference; fail with the encoder-not-found error when an id is
still falsy. -/
def verifyEncoders (shadows2 : List Shadow) (videoName audioName : String)
    (preVideoIds preAudioIds : List (Option Nat)) :
    Except String (Nat × Nat) :=
  let vid0 := findId2 shadows2 "Encoders" videoName
  let aud0 := findId2 shadows2 "Encoders" audioName
  let list := encodersList shadows2
  let vidId := if jsTruthyId vid0 then vid0
    else encFallback list preVideoIds isVideoEntry vid0
  let audId := if jsTruthyId aud0 then aud0
    else encFallback list preAudioIds isAudioEntry aud0
  if !jsTruthyId vidId then
    .error "Video encoder '' not found after creation."
  else if !jsTruthyId audId then
    .error "Audio encoder '' not found after creation."
  else .ok (vidId.getD 0, audId.getD 0)

/-- Status record shown for one downstream platform
(`tellyoStatus` / `cloudStatus`). -/
structure DownstreamStatus where
  state : String
  message : String
deriving Repr, DecidableEq

/-- Outcome of one downstream platform's configuration block: its status and
the stream URL built from the provisional port (when the block ran). -/
structure DownstreamResult where
  status : DownstreamStatus
  streamUrl : Option String
deriving Repr, DecidableEq

/-- One downstream configuration block of `handleConfigure` (the Tellyo
block, lines 553-585, and the Cloudport block, lines 587-654, have the same
shape): when an intent for the platform carries a pre-assigned port, build
`srt://<device-ip>:<port>` from that provisional port and record the network
outcome on this platform's own status; otherwise the status stays idle. -/
def runDownstream (deviceIp : String) (tempPort : Option Nat)
    (net : Except String String) : DownstreamResult :=
  match tempPort with
  | some p =>
      let url := s!"srt://{deviceIp}:{p}"
      match net with
      | .ok m => ⟨⟨"success", m⟩, some url⟩
      | .error m => ⟨⟨"error", m⟩, some url⟩
  | none => ⟨⟨"idle", ""⟩, none⟩

/-- Observable outcome of one orchestration run. -/
structure RunResult where
  err : Option String
  ranDownstream : Bool
  tellyo : DownstreamResult
  cloudport : DownstreamResult
deriving Repr, DecidableEq

/-- Control flow of `handleConfigure` around the device-configuration try
block (Detail.jsx lines 534-545): on a device-configuration failure the run
stops with both downstream statuses reset to idle unless the bypass flag is
set, in which case the failure is recorded as a bypassed warning and both
downstream blocks still run on the provisional ports; each downstream block
is an independent try/catch. -/
def orchestrate (videonRes : Except String Unit) (bypass : Bool)
    (deviceIp : String) (tellyoPort cloudPort : Option Nat)
    (tellyoNet cloudNet : Except String String) : RunResult :=
  match videonRes with
  | .ok _ =>
      { err := none, ranDownstream := true,
        tellyo := runDownstream deviceIp tellyoPort tellyoNet,
        cloudport := runDownstream deviceIp cloudPort cloudNet }
  | .error e =>
      if bypass then
        { err := some ("Videon config failed (Bypassed): " ++ e),
          ranDownstream := true,
          tellyo := runDownstream deviceIp tellyoPort tellyoNet,
          cloudport := runDownstream deviceIp cloudPort cloudNet }
      else
        { err := some ("Videon config failed: " ++ e),
          ranDownstream := false,
          tellyo := ⟨⟨"idle", ""⟩, none⟩,
          cloudport := ⟨⟨"idle", ""⟩, none⟩ }

/-- One entry of the stop/start payloads built by `handleRestart`:
`{ id: t.id || t.output_id, type: t.type, config: { enable } }`. -/
structure RestartEntry where
  id : Option Nat
  type : Option String
  enable : Bool
deriving Repr, DecidableEq

/-- One shadow write command (`shadow_name`, `target_version`, `state`). -/
structure ShadowWrite where
  shadow_name : String
  target_version : Nat
  state : List RestartEntry
deriving Repr, DecidableEq

/-- Observable outcome of `handleRestart`. -/
structure RestartResult where
  blocked : Bool
  ok : Bool
  toast : Option String
  error : Option String
  writes : List ShadowWrite
deriving Repr, DecidableEq

/-- Selection of the currently enabled outputs in `handleRestart`
(Detail.jsx lines 167-176): filter `config.enable === true` over the array
shape, or over `Object.values` of the object shape; anything else selects
nothing. -/
def enabledTargets (st : Option StateShape) : List Entry :=
  match st with
  | some (.array l) => l.filter (fun o => o.cfgEnable == some true)
  | some (.map kvs) =>
      (kvs.map (fun kv => kv.2)).filter (fun o => o.cfgEnable == some true)
  | none => []

/-- The bulk restart workflow (Detail.jsx lines 152-240): blocked in safe
mode; error when the Outputs shadow is missing; a no-op success when no
output is enabled; otherwise one disable write at the fetched version
followed by one enable write at the re-fetched version (falling back to
`version + 1`). -/
def handleRestart (safeMode : Bool) (sh1 sh2 : List Shadow) : RestartResult :=
  if safeMode then ⟨true, false, none, none, []⟩
  else
    match sh1.find? (fun s => s.shadow_name == "Outputs") with
    | none => ⟨false, false, none, some "Could not retrieve Outputs shadow", []⟩
    | some oSh =>
        let version := ((oSh.current_version).orElse (fun _ => oSh.version)).getD 0
        let targets := enabledTargets oSh.reported
        if targets.isEmpty then
          ⟨false, true, some "No active outputs to restart.", none, []⟩
        else
          let stopState := targets.map
            (fun t => RestartEntry.mk (jsOrNat t.id t.output_id) t.type false)
          let oSh2 := sh2.find? (fun s => s.shadow_name == "Outputs")
          let version2 := match oSh2 with
            | some s =>
                ((s.current_version).orElse (fun _ => s.version)).getD (version + 1)
            | none => version + 1
          let startState := targets.map
            (fun t => RestartEntry.mk (jsOrNat t.id t.output_id) t.type true)
          ⟨false, true, some "Restart sequence completed", none,
            [⟨"Outputs", version, stopState⟩, ⟨"Outputs", version2, startState⟩]⟩

/-- The profile fields the mutating detail-view operations guard on. -/
structure Profile where
  name : String := ""
  tellyoLastChannelId : Option Nat := none
  cloudportLastIngestId : Option Nat := none
deriving Repr, DecidableEq

/-- Observable effects of one detail-view operation: whether the
write-blocked handler was signalled and which write calls were issued. -/
structure OpEffects where
  blocked : Bool
  writes : List String
deriving Repr, DecidableEq

/-- `doCmd` (Detail.jsx lines 144-149): safe mode blocks before the
`postCommand` write. -/
def doCmdEffects (safeMode : Bool) : OpEffects :=
  if safeMode then ⟨true, []⟩ else ⟨false, ["postCommand"]⟩

/-- `toggleOut` (Detail.jsx lines 668-677): safe mode blocks first; with a
truthy match id the toggle issues the `postOutputs` write (the subsequent
confirmation polling only reads). -/
def toggleOutEffects (safeMode : Bool) (matchId : Option Nat) : OpEffects :=
  if safeMode then ⟨true, []⟩
  else if jsTruthyId matchId then ⟨false, ["postOutputs"]⟩
  else ⟨false, []⟩

/-- `handleConfigure` entry guards (Detail.jsx lines 253-254): no selected
profile returns silently; safe mode blocks before any device or downstream
write; otherwise the run proceeds to the shadow write sequence. -/
def configureEffects (safeMode : Bool) (cur : Option Profile) : OpEffects :=
  match cur with
  | none => ⟨false, []⟩
  | some _ => if safeMode then ⟨true, []⟩ else ⟨false, ["setDeviceShadows"]⟩

/-- `deleteTellyoChannel` (Detail.jsx lines 679-700): requires a remembered
channel id, then safe mode blocks before the confirm-gated delete write. -/
def deleteTellyoChannelEffects (safeMode : Bool) (cur : Option Profile) :
    OpEffects :=
  match cur with
  | none => ⟨false, []⟩
  | some p =>
      match p.tellyoLastChannelId with
      | none => ⟨false, []⟩
      | some _ =>
          if safeMode then ⟨true, []⟩ else ⟨false, ["tellyoDeleteChannel"]⟩

/-- `toggleCloudport` (Detail.jsx lines 702-759): requires a remembered
ingest id, then safe mode blocks before the `cloudportUpdate` write. -/
def toggleCloudportEffects (safeMode : Bool) (cur : Option Profile) :
    OpEffects :=
  match cur with
  | none => ⟨false, []⟩
  | some p =>
      match p.cloudportLastIngestId with
      | none => ⟨false, []⟩
      | some _ =>
          if safeMode then ⟨true, []⟩ else ⟨false, ["cloudportUpdate"]⟩

/-- `deleteCloudportIngest` (Detail.jsx lines 761-788): requires a selected
profile, then safe mode blocks before the confirm-gated lookup and delete. -/
def deleteCloudportIngestEffects (safeMode : Bool) (cur : Option Profile) :
    OpEffects :=
  match cur with
  | none => ⟨false, []⟩
  | some _ =>
      if safeMode then ⟨true, []⟩ else ⟨false, ["cloudportDelete"]⟩

/-- A Tellyo channel as the orchestrator and `getSrtUrl` see it. -/
structure Channel where
  id : Nat
  name : String := ""
  streamUrl : String := ""
deriving Repr, DecidableEq

/-- The downstream registry operation the orchestrator ends up invoking. -/
inductive RegAction where
  | create
  | update (id : Option Nat)
deriving Repr, DecidableEq

/-- Channel selection in the Tellyo block of `handleConfigure` (Detail.jsx
lines 567-568): prefer the channel with the remembered id, fall back to a
name match. -/
def tellyoFindChannel (channels : List Channel) (lastChannelId : Option Nat)
    (channelName : String) : Option Channel :=
  let byId := match lastChannelId with
    | some lid => channels.find? (fun c => c.id == lid)
    | none => none
  match byId with
  | some c => some c
  | none => channels.find? (fun c => c.name == channelName)

/-- The Tellyo upsert decision (Detail.jsx lines 572-579): update the found
channel by id, else create. -/
def tellyoConfigureAction (channels : List Channel)
    (lastChannelId : Option Nat) (channelName : String) : RegAction :=
  match tellyoFindChannel channels lastChannelId channelName with
  | some channel => .update (some channel.id)
  | none => .create

/-- A Cloudport ingest record with the label and id field synonyms the
client accepts. -/
structure Ingest where
  id : Option Nat := none
  ingest_id : Option Nat := none
  ingest_label : Option String := none
  ingestLabel : Option String := none
  label : Option String := none
deriving Repr, DecidableEq

/-- `x.ingest_label || x.ingestLabel || x.label`. -/
def ingestLabelOf (x : Ingest) : Option String :=
  jsOrStr x.ingest_label (jsOrStr x.ingestLabel x.label)

/-- `cloudportFetchByLabel` match selection (videonApi.js lines 384-394):
with a non-empty result list, prefer an exact label match, then a
case-insensitive match, then the first result. -/
def cloudportFindByLabel (ingests : List Ingest) (label : String) :
    Option Ingest :=
  if ingests.isEmpty then none
  else if label != "" then
    match ingests.find? (fun x => ingestLabelOf x == some label) with
    | some m => some m
    | none =>
        match ingests.find?
          (fun x => ((ingestLabelOf x).getD "").toLower == label.toLower) with
        | some m => some m
        | none => ingests.head?
  else ingests.head?

/-- The Cloudport upsert decision (Detail.jsx lines 640-652): update the
found ingest at `ingest.id || ingest.ingest_id`, else create. -/
def cloudportConfigureAction (ingests : List Ingest) (label : String) :
    RegAction :=
  match cloudportFindByLabel ingests label with
  | some ingest => .update (jsOrNat ingest.id ingest.ingest_id)
  | none => .create

/-- Lower bound of the Tellyo SRT port range (tellyoUtils.js). -/
def PORT_MIN : Nat := 10006

/-- Upper bound of the Tellyo SRT port range (tellyoUtils.js). -/
def PORT_MAX : Nat := 10100

/-- Longest leading digit run of a character list, with the remainder. -/
def takeDigits : List Char → List Char × List Char
  | [] => ([], [])
  | c :: cs =>
      if c.isDigit then
        let r := takeDigits cs
        (c :: r.1, r.2)
      else ([], c :: cs)

/-- Decimal value of a digit run (the `parseInt(match[1], 10)` step). -/
def parseDigits (ds : List Char) : Nat :=
  ds.foldl (fun acc c => acc * 10 + (c.toNat - 48)) 0

/-- Scan for the regular expression of `extractPort`: a colon followed by a
digit run that ends at the end of the string or right before a slash or a
question mark.  The first such occurrence wins, as with `String.match`. -/
def extractPortAux : List Char → Option Nat
  | [] => none
  | c :: rest =>
      if c = ':' then
        let ds := takeDigits rest
        if ds.1.isEmpty then extractPortAux rest
        else
          match ds.2 with
          | [] => some (parseDigits ds.1)
          | a :: _ =>
              if a = '/' || a = '?' then some (parseDigits ds.1)
              else extractPortAux rest
      else extractPortAux rest

/-- tellyoUtils.js `extractPort`: port number of a standard SRT URL, `none`
when no port is present. -/
def extractPort (url : String) : Option Nat :=
  extractPortAux url.toList

/-- Ports already used by existing channels, restricted to the range
`PORT_MIN <= p < PORT_MAX` (tellyoUtils.js lines 43-45). -/
def usedPorts (channels : List Channel) : List Nat :=
  channels.filterMap (fun c =>
    match extractPort c.streamUrl with
    | some p => if PORT_MIN ≤ p && p < PORT_MAX then some p else none
    | none => none)

/-- `Math.max` over a list of ports. -/
def listMax (l : List Nat) : Nat :=
  l.foldl max 0

/-- The next-port computation of `getSrtUrl` (tellyoUtils.js line 47):
highest used port plus one, or `PORT_MIN` when no port is used. -/
def nextPortFrom (used : List Nat) : Nat :=
  if used.isEmpty then PORT_MIN else listMax used + 1

/-- The final URL step of `getSrtUrl` (tellyoUtils.js lines 49-55): a
computed port above `PORT_MAX` wraps around to `PORT_MIN` instead of
failing. -/
def srtUrlForPort (ip : String) (nextPort : Nat) : String :=
  if nextPort > PORT_MAX then s!"srt://{ip}:{PORT_MIN}"
  else s!"srt://{ip}:{nextPort}"

/-- tellyoUtils.js `getSrtUrl`: empty result without a device IP; when
editing an existing channel whose stream URL carries a truthy port, reuse
exactly that port; otherwise allocate from the used-port scan. -/
def getSrtUrl (videonIp : String) (existingChannels : List Channel)
    (currentChannelId : Option Nat) : String :=
  if videonIp == "" then ""
  else
    let reuse : Option Nat :=
      match currentChannelId with
      | some cid =>
          match existingChannels.find? (fun c => c.id == cid) with
          | some c =>
              if c.streamUrl != "" then
                match extractPort c.streamUrl with
                | some p => if p != 0 then some p else none
                | none => none
              else none
          | none => none
      | none => none
    match reuse with
    | some p => s!"srt://{videonIp}:{p}"
    | none => srtUrlForPort videonIp (nextPortFrom (usedPorts existingChannels))

/-- Whitespace test for the JavaScript `trim()` model. -/
def isSpaceChar (c : Char) : Bool :=
  c = ' ' || c = '\t' || c = '\n' || c = '\r'

/-- JavaScript `String.prototype.trim()`: strip leading and trailing
whitespace. -/
def jsTrim (s : String) : String :=
  String.mk (((s.toList.dropWhile isSpaceChar).reverse.dropWhile
    isSpaceChar).reverse)

/-- The stream URL determination of `buildTellyoChannelPayload`
(tellyoUtils.js lines 79-82): keep a configured URL unless it is empty or
blank, in which case the URL is auto-generated by `getSrtUrl`. -/
def buildFinalStreamUrl (cfgStreamUrl : String) (videonIp : String)
    (channels : List Channel) (channelId : Option Nat) : String :=
  if cfgStreamUrl == "" || jsTrim cfgStreamUrl == "" then
    getSrtUrl videonIp channels channelId
  else cfgStreamUrl

lemma preassignGo_ok_of_all_platform (outs : List Intent) (counter : Nat)
    (hplat : ∀ o ∈ outs, isPlatform o.target = true)
    (hle : counter + outs.length ≤ 10101) :
    Except.map (fun l => l.map (fun o => o.tempPort)) (preassignGo counter outs)
      = .ok ((List.range outs.length).map (fun i => some (counter + i))) := by
  induction outs generalizing counter with
  | nil => simp [preassignGo, Except.map]
  | cons o rest ih =>
      have ho : isPlatform o.target = true := hplat o (by simp)
      have hnot : ¬ counter > 10100 := by
        simp only [List.length_cons] at hle
        omega
      have hrest : ∀ x ∈ rest, isPlatform x.target = true := by
        intro x hx
        exact hplat x (by simp [hx])
      have hle' : counter + 1 + rest.length ≤ 10101 := by
        simp only [List.length_cons] at hle
        omega
      have ihr := ih (counter + 1) hrest hle'
      simp only [preassignGo, ho, if_true, hnot, if_false]
      cases hres : preassignGo (counter + 1) rest with
      | error e => simp [hres, Except.map] at ihr
      | ok rest' =>
          simp only [hres, Except.map] at ihr ⊢
          simp only [Except.ok.injEq] at ihr
          simp only [List.length_cons, List.range_succ_eq_map, List.map_cons,
            List.map_map, Except.ok.injEq, List.cons.injEq]
          refine ⟨rfl, ?_⟩
          rw [ihr]
          apply List.map_congr_left
          intro i _
          simp only [Function.comp_apply, Option.some.injEq]
          omega

lemma preassignGo_error_of_overflow (outs : List Intent) (counter : Nat)
    (hne : outs ≠ [])
    (hplat : ∀ o ∈ outs, isPlatform o.target = true)
    (hgt : counter + outs.length > 10101) :
    preassignGo counter outs = .error "Port range exhausted (10001-10100)" := by
  induction outs generalizing counter with
  | nil => exact absurd rfl hne
  | cons o rest ih =>
      have ho : isPlatform o.target = true := hplat o (by simp)
      by_cases hc : counter > 10100
      · simp [preassignGo, ho, hc]
      · have hrestne : rest ≠ [] := by
          intro h
          subst h
          simp only [List.length_cons, List.length_nil] at hgt
          omega
        have hrest : ∀ x ∈ rest, isPlatform x.target = true := by
          intro x hx
          exact hplat x (by simp [hx])
        have hgt' : counter + 1 + rest.length > 10101 := by
          simp only [List.length_cons] at hgt
          omega
        have := ih (counter + 1) hrestne hrest hgt'
        simp [preassignGo, ho, hc, this]

/-- C2.  For a list of output intents all targeting the two delivery
platforms: when at most 100 intents are present the pre-assignment succeeds
and hands out the sequential ports 10001, 10002, ..., which are pairwise
distinct and all inside 10001-10100; when more than 100 intents are present
it fails with the range-exhausted error and no intent carries a port. -/
theorem C2_port_preassignment (outs : List Intent)
    (hplat : ∀ o ∈ outs, isPlatform o.target = true) :
    (outs.length ≤ 100 →
      Except.map (fun l => l.map (fun o => o.tempPort)) (preassignPorts outs)
        = .ok ((List.range outs.length).map (fun i => some (10001 + i)))
      ∧ ((List.range outs.length).map (fun i => 10001 + i)).Nodup
      ∧ ∀ p ∈ (List.range outs.length).map (fun i => 10001 + i),
          10001 ≤ p ∧ p ≤ 10100)
    ∧ (100 < outs.length →
        preassignPorts outs = .error "Port range exhausted (10001-10100)") := by
  constructor
  · intro hlen
    refine ⟨preassignGo_ok_of_all_platform outs 10001 hplat (by omega), ?_, ?_⟩
    · exact List.Nodup.map (fun a b h => by omega) (List.nodup_range _)
    · intro p hp
      simp only [List.mem_map, List.mem_range] at hp
      obtain ⟨i, hi, rfl⟩ := hp
      omega
  · intro hlen
    have hne : outs ≠ [] := by
      intro h
      subst h
      simp at hlen
    exact preassignGo_error_of_overflow outs 10001 hne hplat (by omega)

/-- Concrete instance of C2: two platform intents receive ports 10001 and
10002. -/
theorem C2_port_preassignment_witness :
    (∀ o ∈ [({ target := "Tellyo Studio" } : Intent),
            ({ target := "Amagi CLOUDPORT" } : Intent)],
        isPlatform o.target = true)
    ∧ Except.map (fun l => l.map (fun o => o.tempPort))
        (preassignPorts [({ target := "Tellyo Studio" } : Intent),
                         ({ target := "Amagi CLOUDPORT" } : Intent)])
        = .ok [some 10001, some 10002] := by
  refine ⟨by decide, ?_⟩
  have h := (C2_port_preassignment
    [({ target := "Tellyo Studio" } : Intent),
     ({ target := "Amagi CLOUDPORT" } : Intent)] (by decide)).1 (by decide)
  simpa using h.1

/-- C3.  The confirmation poller sleeps for the configured delays 300, 600,
1200 in this order, fetching after each sleep: it returns `ok = true` with
the observed state as soon as the predicate holds (using exactly 2 waits
when the predicate first holds at the fetch after the 2nd delay); when the
predicate holds at none of the three in-loop fetches it performs one final
fetch and returns that fetch's predicate verdict, hence `ok = false` on
timeout. -/
theorem C3_confirmation_polling {S : Type} (fetch : Nat → S) (check : S → Bool) :
    (check (fetch 0) = true →
      confirmOutputsState fetch check = ⟨[300], true, fetch 0⟩)
    ∧ (check (fetch 0) = false → check (fetch 1) = true →
      confirmOutputsState fetch check = ⟨[300, 600], true, fetch 1⟩)
    ∧ (check (fetch 0) = false → check (fetch 1) = false →
        check (fetch 2) = true →
      confirmOutputsState fetch check = ⟨[300, 600, 1200], true, fetch 2⟩)
    ∧ (check (fetch 0) = false → check (fetch 1) = false →
        check (fetch 2) = false →
      confirmOutputsState fetch check
        = ⟨[300, 600, 1200], check (fetch 3), fetch 3⟩)
    ∧ (check (fetch 0) = false → check (fetch 1) = false →
        check (fetch 2) = false → check (fetch 3) = false →
      (confirmOutputsState fetch check).ok = false) := by
  refine ⟨?_, ?_, ?_, ?_, ?_⟩
  · intro h0
    simp [confirmOutputsState, OUTPUT_CONFIRM_DELAYS, confirmGo, h0]
  · intro h0 h1
    simp [confirmOutputsState, OUTPUT_CONFIRM_DELAYS, confirmGo, h0, h1]
  · intro h0 h1 h2
    simp [confirmOutputsState, OUTPUT_CONFIRM_DELAYS, confirmGo, h0, h1, h2]
  · intro h0 h1 h2
    simp [confirmOutputsState, OUTPUT_CONFIRM_DELAYS, confirmGo, h0, h1, h2]
  · intro h0 h1 h2 h3
    simp [confirmOutputsState, OUTPUT_CONFIRM_DELAYS, confirmGo, h0, h1, h2, h3]

/-- Concrete instance of C3: a predicate that first holds at the fetch after
the second delay returns with exactly the two waits 300 and 600. -/
theorem C3_confirmation_polling_witness :
    ((fun n : Nat => n == 1) 0 = false)
    ∧ ((fun n : Nat => n == 1) 1 = true)
    ∧ confirmOutputsState (fun i => i) (fun n : Nat => n == 1)
        = ⟨[300, 600], true, 1⟩ :=
  ⟨by decide, by decide,
    (C3_confirmation_polling (fun i => i) (fun n : Nat => n == 1)).2.1
      (by decide) (by decide)⟩

/-- C4, counterexample side.  The same reported entry (id 20, srt,
destination port 10001, matching the intent pre-assigned port 10001) is
matched when the Outputs shadow reports an array but ignored when it reports
a map keyed by an arbitrary id, so VerifyOutputs matching is NOT invariant
under the array-vs-map representation; `findId2`, used by VerifyEncoders,
does resolve the same id from both shapes. -/
theorem C4_shape_invariance_fails_for_outputs :
    ((verifyOutputsMatch
        [{ target := "Tellyo Studio", name := some "primary",
           tempPort := some 10001 }]
        (some (.array [{ id := some 20, type := some "srt",
                         cfgDestPort := some 10001 }]))).map
      (fun o => o.videonId) = [some 20])
    ∧ ((verifyOutputsMatch
        [{ target := "Tellyo Studio", name := some "primary",
           tempPort := some 10001 }]
        (some (.map [("7", { id := some 20, type := some "srt",
                             cfgDestPort := some 10001 })]))).map
      (fun o => o.videonId) = [none])
    ∧ findId2
        [{ shadow_name := "Encoders",
           reported := some (.array
             [{ id := some 10, cfgName := some "Studio-A_video",
                type := some "video" }]) }] "Encoders" "Studio-A_video"
        = some 10
    ∧ findId2
        [{ shadow_name := "Encoders",
           reported := some (.map
             [("k", { id := some 10, cfgName := some "Studio-A_video",
                      type := some "video" })]) }] "Encoders" "Studio-A_video"
        = some 10 := by
  refine ⟨?_, ?_, ?_, ?_⟩ <;> decide

/-- C6.  A reported srt entry whose listener port equals a provisionally
allocated port is matched back to the intent assigned that port, and that
intent's `videonId` is set to `out_stream_id || id`; in the example
scenario (intent allocated port 10001, read shows id 20 with destination
port 10001) the intent's `videonId` becomes 20. -/
theorem C6_verify_outputs_port_matching :
    (∀ (outs : List Intent) (ro : Entry) (p i : Nat),
      jsOrStr ro.otValue ro.type = some "srt" →
      jsOrNat ro.otSrtDestPort ro.cfgDestPort = some p →
      p ≠ 0 →
      portMapGet (portAssignments outs) p = some i →
      verifyOutputsMatch outs (some (.array [ro]))
        = setIntentVideonId outs i (jsOrNat ro.outStreamId ro.id))
    ∧ (verifyOutputsMatch
        [{ target := "Tellyo Studio", name := some "primary",
           tempPort := some 10001 }]
        (some (.array [{ id := some 20, type := some "srt",
                         cfgDestPort := some 10001 }]))).map
      (fun o => o.videonId) = [some 20] := by
  constructor
  · intro outs ro p i hty hport hp hi
    simp [verifyOutputsMatch, applyReported, hty, hport, hp, hi]
  · decide

/-- Concrete instance of the general part of C6. -/
theorem C6_verify_outputs_port_matching_witness :
    jsOrStr ({ id := some 20, type := some "srt",
               cfgDestPort := some 10002 } : Entry).otValue
      ({ id := some 20, type := some "srt",
         cfgDestPort := some 10002 } : Entry).type = some "srt"
    ∧ verifyOutputsMatch
        [{ target := "Amagi CLOUDPORT", tempPort := some 10002 }]
        (some (.array [{ type := some "srt", id := some 20,
                         cfgDestPort := some 10002 }]))
      = setIntentVideonId
          [{ target := "Amagi CLOUDPORT", tempPort := some 10002 }] 0
          (some 20) :=
  ⟨by decide,
    by
      have h := (C6_verify_outputs_port_matching).1
        [{ target := "Amagi CLOUDPORT", tempPort := some 10002 }]
        { type := some "srt", id := some 20, cfgDestPort := some 10002 }
        10002 0 (by decide) (by decide) (by decide) (by decide)
      simpa using h⟩

/-- C1.  Whenever the find-by-label step returns an existing downstream
entity, the orchestrator configures that platform with the update operation
on the found entity's id and never with create; re-running against an
unchanged registry therefore updates instead of duplicating the channel and
the ingest. -/
theorem C1_downstream_upsert_idempotent :
    (∀ (channels : List Channel) (lastId : Option Nat) (nm : String)
        (ch : Channel),
      tellyoFindChannel channels lastId nm = some ch →
      tellyoConfigureAction channels lastId nm = .update (some ch.id)
        ∧ tellyoConfigureAction channels lastId nm ≠ .create)
    ∧ (∀ (ingests : List Ingest) (lbl : String) (ing : Ingest),
      cloudportFindByLabel ingests lbl = some ing →
      cloudportConfigureAction ingests lbl
          = .update (jsOrNat ing.id ing.ingest_id)
        ∧ cloudportConfigureAction ingests lbl ≠ .create) := by
  constructor
  · intro channels lastId nm ch h
    simp [tellyoConfigureAction, h]
  · intro ingests lbl ing h
    simp [cloudportConfigureAction, h]

/-- Concrete instance of C1: with an existing channel named studio-a and an
existing ingest labelled studio-a, both platforms take the update branch. -/
theorem C1_downstream_upsert_idempotent_witness :
    tellyoFindChannel [{ id := 5, name := "studio-a" }] none "studio-a"
        = some { id := 5, name := "studio-a" }
    ∧ tellyoConfigureAction [{ id := 5, name := "studio-a" }] none "studio-a"
        = .update (some 5)
    ∧ cloudportFindByLabel [{ id := some 9, ingest_label := some "studio-a" }]
        "studio-a" = some { id := some 9, ingest_label := some "studio-a" }
    ∧ cloudportConfigureAction
        [{ id := some 9, ingest_label := some "studio-a" }] "studio-a"
        = .update (some 9) := by
  refine ⟨by decide, ?_, by decide, ?_⟩
  · exact (C1_downstream_upsert_idempotent.1
      [{ id := 5, name := "studio-a" }] none "studio-a"
      { id := 5, name := "studio-a" } (by decide)).1
  · have h := (C1_downstream_upsert_idempotent.2
      [{ id := some 9, ingest_label := some "studio-a" }] "studio-a"
      { id := some 9, ingest_label := some "studio-a" } (by decide)).1
    simpa using h

/-- C5.  VerifyEncoders resolves the video and audio encoder ids by matching
the deterministic names built from the profile name; when a name lookup
yields a falsy id it falls back to an entry of that kind whose id was not
observed before the write; a still-unresolved id fails with the
encoder-not-found error, which aborts the run unless bypass is enabled. -/
theorem C5_verify_encoders_resolution (sh : List Shadow) (nm : String)
    (preV preA : List (Option Nat)) :
    (∀ v a : Nat,
      findId2 sh "Encoders" (videoNameOf nm) = some v → v ≠ 0 →
      findId2 sh "Encoders" (audioNameOf nm) = some a → a ≠ 0 →
      verifyEncoders sh (videoNameOf nm) (audioNameOf nm) preV preA
        = .ok (v, a))
    ∧ (∀ (e : Entry) (v a : Nat),
      jsTruthyId (findId2 sh "Encoders" (videoNameOf nm)) = false →
      (encodersList sh).find?
          (fun x => isVideoEntry x && !(preV.contains x.id)) = some e →
      e.id = some v → v ≠ 0 →
      findId2 sh "Encoders" (audioNameOf nm) = some a → a ≠ 0 →
      verifyEncoders sh (videoNameOf nm) (audioNameOf nm) preV preA
        = .ok (v, a))
    ∧ (jsTruthyId (findId2 sh "Encoders" (videoNameOf nm)) = false →
      (encodersList sh).find?
          (fun x => isVideoEntry x && !(preV.contains x.id)) = none →
      verifyEncoders sh (videoNameOf nm) (audioNameOf nm) preV preA
        = .error "Video encoder '' not found after creation.")
    ∧ (∀ (m deviceIp : String) (tp cp : Option Nat)
        (tn cn : Except String String),
      verifyEncoders sh (videoNameOf nm) (audioNameOf nm) preV preA
          = .error m →
      (orchestrate (.error m) false deviceIp tp cp tn cn).ranDownstream = false
        ∧ (orchestrate (.error m) true deviceIp tp cp tn cn).ranDownstream
            = true) := by
  refine ⟨?_, ?_, ?_, ?_⟩
  · intro v a hv hv0 ha ha0
    simp [verifyEncoders, hv, ha, jsTruthyId, hv0, ha0]
  · intro e v a hvf hfind hid hv0 ha ha0
    simp only [verifyEncoders, encFallback, hvf, hfind, hid, ha]
    simp [jsTruthyId, hv0, ha0]
  · intro hvf hfind
    simp only [verifyEncoders, encFallback, hvf, hfind]
    simp [hvf]
  · intro m deviceIp tp cp tn cn _
    exact ⟨rfl, rfl⟩

/-- Concrete instance of C5, the example of the specification: after the
write the Encoders shadow reports ids 10 and 11 under the names
Studio-A_video and Studio-A_audio, and VerifyEncoders returns (10, 11). -/
theorem C5_verify_encoders_resolution_witness :
    findId2
      [{ shadow_name := "Encoders",
         reported := some (.array
           [{ id := some 10, cfgName := some "Studio-A_video",
              type := some "video" },
            { id := some 11, cfgName := some "Studio-A_audio",
              type := some "audio" }]) }] "Encoders" (videoNameOf "Studio-A")
      = some 10
    ∧ verifyEncoders
        [{ shadow_name := "Encoders",
           reported := some (.array
             [{ id := some 10, cfgName := some "Studio-A_video",
                type := some "video" },
              { id := some 11, cfgName := some "Studio-A_audio",
                type := some "audio" }]) }]
        (videoNameOf "Studio-A") (audioNameOf "Studio-A") [] []
      = .ok (10, 11) :=
  ⟨by decide,
    (C5_verify_encoders_resolution
      [{ shadow_name := "Encoders",
         reported := some (.array
           [{ id := some 10, cfgName := some "Studio-A_video",
              type := some "video" },
            { id := some 11, cfgName := some "Studio-A_audio",
              type := some "audio" }]) }] "Studio-A" [] []).1
      10 11 (by decide) (by decide) (by decide) (by decide)⟩

/-- C7.  A device-configuration failure halts the run before any downstream
configuration unless the bypass flag is set, in which case it is recorded as
a bypassed warning and the downstream blocks still run on the provisional
ports; and each downstream platform's outcome is independent of the other
platform's result, a failure being reported on its own status only. -/
theorem C7_failure_bypass_policy (e deviceIp : String) (tp cp : Option Nat)
    (tn cn tn' cn' : Except String String) :
    ((orchestrate (.error e) false deviceIp tp cp tn cn).ranDownstream = false
      ∧ (orchestrate (.error e) false deviceIp tp cp tn cn).tellyo.status.state
          = "idle"
      ∧ (orchestrate (.error e) false deviceIp tp cp tn cn).cloudport.status.state
          = "idle")
    ∧ ((orchestrate (.error e) true deviceIp tp cp tn cn).ranDownstream = true
      ∧ (orchestrate (.error e) true deviceIp tp cp tn cn).err
          = some ("Videon config failed (Bypassed): " ++ e)
      ∧ ∀ port : Nat, tp = some port →
          (orchestrate (.error e) true deviceIp tp cp tn cn).tellyo.streamUrl
            = some s!"srt://{deviceIp}:{port}")
    ∧ (∀ (v : Except String Unit) (b : Bool),
        (orchestrate v b deviceIp tp cp tn cn).cloudport
          = (orchestrate v b deviceIp tp cp tn' cn).cloudport
        ∧ (orchestrate v b deviceIp tp cp tn cn).tellyo
          = (orchestrate v b deviceIp tp cp tn cn').tellyo)
    ∧ (∀ (m : String) (b : Bool) (port : Nat), tp = some port →
        (orchestrate (.ok ()) b deviceIp tp cp (.error m) cn).tellyo.status
          = ⟨"error", m⟩) := by
  refine ⟨?_, ?_, ?_, ?_⟩
  · exact ⟨rfl, rfl, rfl⟩
  · refine ⟨rfl, rfl, ?_⟩
    intro port hport
    subst hport
    cases tn <;> rfl
  · intro v b
    cases v <;> cases b <;> exact ⟨rfl, rfl⟩
  · intro m b port hport
    subst hport
    rfl

/-- Concrete instance of C7: a device failure with bypass off halts before
downstream, with bypass on it proceeds using the provisional port 10001. -/
theorem C7_failure_bypass_policy_witness :
    (orchestrate (.error "boom") false "1.2.3.4" (some 10001) none
        (.ok "Channel updated") (.ok "Ingest updated")).ranDownstream = false
    ∧ (orchestrate (.error "boom") true "1.2.3.4" (some 10001) none
        (.ok "Channel updated") (.ok "Ingest updated")).tellyo.streamUrl
      = some "srt://1.2.3.4:10001" := by
  have h := C7_failure_bypass_policy "boom" "1.2.3.4" (some 10001) none
    (.ok "Channel updated") (.ok "Ingest updated")
    (.error "down") (.error "down")
  refine ⟨h.1.1, ?_⟩
  have h2 := h.2.1.2.2 10001 rfl
  simpa using h2

/-- C8.  When zero entries of the Outputs shadow are enabled, the bulk
restart succeeds as a no-op: no shadow write is issued (neither the disable
nor the enable payload) and the result is a success, not an error. -/
theorem C8_bulk_restart_noop (sh1 sh2 : List Shadow) (oSh : Shadow)
    (hfind : sh1.find? (fun s => s.shadow_name == "Outputs") = some oSh)
    (hnone : enabledTargets oSh.reported = []) :
    handleRestart false sh1 sh2
      = ⟨false, true, some "No active outputs to restart.", none, []⟩ := by
  simp [handleRestart, hfind, hnone]

/-- Concrete instance of C8: an Outputs shadow whose only entry is disabled
makes the restart a write-free success. -/
theorem C8_bulk_restart_noop_witness :
    ([({ shadow_name := "Outputs",
         reported := some (.array [{ id := some 3, type := some "srt",
                                     cfgEnable := some false }]),
         current_version := some 7 } : Shadow)].find?
        (fun s => s.shadow_name == "Outputs")
      = some { shadow_name := "Outputs",
               reported := some (.array [{ id := some 3, type := some "srt",
                                           cfgEnable := some false }]),
               current_version := some 7 })
    ∧ handleRestart false
        [{ shadow_name := "Outputs",
           reported := some (.array [{ id := some 3, type := some "srt",
                                       cfgEnable := some false }]),
           current_version := some 7 }] []
      = ⟨false, true, some "No active outputs to restart.", none, []⟩ :=
  ⟨by decide,
    C8_bulk_restart_noop
      [{ shadow_name := "Outputs",
         reported := some (.array [{ id := some 3, type := some "srt",
                                     cfgEnable := some false }]),
         current_version := some 7 }] []
      { shadow_name := "Outputs",
        reported := some (.array [{ id := some 3, type := some "srt",
                                    cfgEnable := some false }]),
        current_version := some 7 }
      (by decide) (by decide)⟩

/-- C9.  With safe mode enabled, every mutating operation of the detail view
(configure endpoints, bulk restart, single output toggle, device command,
downstream delete and toggle) signals the write-blocked handler and returns
with no write issued. -/
theorem C9_safe_mode_write_barrier (p : Profile) (mId : Option Nat)
    (sh1 sh2 : List Shadow) (tId gId : Nat)
    (hT : p.tellyoLastChannelId = some tId)
    (hG : p.cloudportLastIngestId = some gId) :
    configureEffects true (some p) = ⟨true, []⟩
    ∧ handleRestart true sh1 sh2 = ⟨true, false, none, none, []⟩
    ∧ toggleOutEffects true mId = ⟨true, []⟩
    ∧ doCmdEffects true = ⟨true, []⟩
    ∧ deleteTellyoChannelEffects true (some p) = ⟨true, []⟩
    ∧ toggleCloudportEffects true (some p) = ⟨true, []⟩
    ∧ deleteCloudportIngestEffects true (some p) = ⟨true, []⟩ := by
  refine ⟨rfl, rfl, rfl, rfl, ?_, ?_, rfl⟩
  · simp [deleteTellyoChannelEffects, hT]
  · simp [toggleCloudportEffects, hG]

/-- Concrete instance of C9: a deployed profile, safe mode on. -/
theorem C9_safe_mode_write_barrier_witness :
    ({ name := "Studio-A", tellyoLastChannelId := some 5,
       cloudportLastIngestId := some 9 } : Profile).tellyoLastChannelId
      = some 5
    ∧ deleteTellyoChannelEffects true
        (some { name := "Studio-A", tellyoLastChannelId := some 5,
                cloudportLastIngestId := some 9 })
      = ⟨true, []⟩ :=
  ⟨rfl,
    (C9_safe_mode_write_barrier
      { name := "Studio-A", tellyoLastChannelId := some 5,
        cloudportLastIngestId := some 9 }
      none [] [] 5 9 rfl rfl).2.2.2.2.1⟩

/-- C10.  The Tellyo payload auto-generates the stream URL only when the
configured URL is blank; when editing an existing channel whose URL carries
a parseable (truthy) port that exact port is reused; otherwise the next port
is the maximum used port inside 10006..10099 plus one, or 10006 when none is
used; and a computed port above 10100 wraps back to 10006 instead of
failing. -/
theorem C10_tellyo_port_allocator (cfg videonIp : String)
    (channels : List Channel) (channelId : Option Nat) :
    (jsTrim cfg ≠ "" →
      buildFinalStreamUrl cfg videonIp channels channelId = cfg)
    ∧ (jsTrim cfg = "" →
      buildFinalStreamUrl cfg videonIp channels channelId
        = getSrtUrl videonIp channels channelId)
    ∧ (∀ (cid : Nat) (ch : Channel) (p : Nat),
        videonIp ≠ "" →
        channels.find? (fun c => c.id == cid) = some ch →
        ch.streamUrl ≠ "" →
        extractPort ch.streamUrl = some p → p ≠ 0 →
        getSrtUrl videonIp channels (some cid) = s!"srt://{videonIp}:{p}")
    ∧ (videonIp ≠ "" →
        getSrtUrl videonIp channels none
          = srtUrlForPort videonIp (nextPortFrom (usedPorts channels)))
    ∧ nextPortFrom [] = 10006
    ∧ (∀ used : List Nat, used ≠ [] → nextPortFrom used = listMax used + 1)
    ∧ (∀ n : Nat, n > 10100 →
        srtUrlForPort videonIp n = s!"srt://{videonIp}:{PORT_MIN}")
    ∧ PORT_MIN = 10006 := by
  refine ⟨?_, ?_, ?_, ?_, rfl, ?_, ?_, rfl⟩
  · intro h
    have hc : (cfg == "") = false := by
      rcases eq_or_ne cfg "" with rfl | hne
      · exact absurd (by decide) h
      · simp [hne]
    have ht : (jsTrim cfg == "") = false := by simp [h]
    simp [buildFinalStreamUrl, hc, ht]
  · intro h
    simp [buildFinalStreamUrl, h]
  · intro cid ch p hip hfind hurl hport hp
    simp [getSrtUrl, hip, hfind, hurl, hport, hp]
  · intro hip
    simp [getSrtUrl, hip]
  · intro used hused
    simp [nextPortFrom, hused]
  · intro n hn
    simp [srtUrlForPort, PORT_MAX, hn]

/-- Concrete instance of C10: editing channel 1 with URL
srt://1.2.3.4:10007 reuses port 10007, and a wrapped port 10101 falls back
to 10006. -/
theorem C10_tellyo_port_allocator_witness :
    extractPort "srt://1.2.3.4:10007" = some 10007
    ∧ getSrtUrl "1.2.3.4"
        [{ id := 1, name := "c", streamUrl := "srt://1.2.3.4:10007" }]
        (some 1) = "srt://1.2.3.4:10007"
    ∧ srtUrlForPort "1.2.3.4" 10101 = "srt://1.2.3.4:10006" := by
  refine ⟨by decide, ?_, ?_⟩
  · have h := (C10_tellyo_port_allocator "" "1.2.3.4"
      [{ id := 1, name := "c", streamUrl := "srt://1.2.3.4:10007" }]
      (some 1)).2.2.1 1
      { id := 1, name := "c", streamUrl := "srt://1.2.3.4:10007" }
      10007 (by decide) (by decide) (by decide) (by decide) (by decide)
    simpa using h
  · have h := (C10_tellyo_port_allocator "" "1.2.3.4" [] none).2.2.2.2.2.2.1
      10101 (by decide)
    simpa [PORT_MIN] using h

end EdgeLink
